import Mathlib

/-!
# Verification of the Dropbox wire-protocol client (`dropbox_cpy.py`)

A shallow embedding of the token-lifecycle and resilient-request subsystem
of the `xiaocam_cpy` repository: the JSON values it moves around, the
credential bookkeeping of `check_and_refresh_access_token`, the
response-to-error classification of `raise_dropbox_error_for_resp`, the retry
loop of `post_request_json_string_with_retry`, and the route/header builders
(`files_upload`, `path_exists`, `__init__` validation).

Python dictionaries holding decoded JSON become an explicit `Json` inductive;
Python exceptions become `Except` values; the singleton real-time clock
becomes an explicit `now : Int` argument; the injected transport becomes an
explicit list of scripted `Response` values consumed one per loop iteration;
`random.random()` becomes an explicit stream `jitter : Nat -> Rat`.
-/

/-- Decoded JSON values, as produced by `res.json()` / `json.loads`. -/
inductive Json where
  | null
  | bool (b : Bool)
  | num (n : Int)
  | str (s : String)
  | obj (members : List (String × Json))
deriving Repr

mutual

/-- Structural equality on JSON values, mirroring Python `==` on the
decoded objects (dict comparison here is order-sensitive list comparison;
every concrete object in this development is used with a fixed key order). -/
def Json.beq : Json → Json → Bool
  | .null, .null => true
  | .bool a, .bool b => a == b
  | .num a, .num b => a == b
  | .str a, .str b => a == b
  | .obj a, .obj b => Json.beqMembers a b
  | _, _ => false

/-- Member-list equality used by `Json.beq`. -/
def Json.beqMembers : List (String × Json) → List (String × Json) → Bool
  | [], [] => true
  | (k₁, v₁) :: r₁, (k₂, v₂) :: r₂ => k₁ == k₂ && Json.beq v₁ v₂ && Json.beqMembers r₁ r₂
  | _, _ => false

end

instance : BEq Json := ⟨Json.beq⟩

/-- Python truthiness of a decoded JSON value (`if x:`). -/
def pyTruthy : Json → Bool
  | .null => false
  | .bool b => b
  | .num n => n != 0
  | .str s => s != ""
  | .obj ms => !ms.isEmpty

/-- Python subscription `x[key]` on a decoded JSON value: a key lookup on a
dict, a `KeyError` when the key is absent, and a `TypeError` when the value
is not a dict (e.g. a string indexed with a string key). -/
def pyIndex (j : Json) (key : String) : Except String Json :=
  match j with
  | .obj ms =>
    match ms.lookup key with
    | some v => .ok v
    | none => .error "KeyError"
  | _ => .error "TypeError"

/-! ## JSON serialization (`json.dumps`) and parsing (`json.loads`)

`files_upload` serializes its argument dict with `dumps` (default
separators `", "` and `": "`, insertion order preserved); the round-trip
claim about the `Dropbox-API-Arg` header needs both directions.
-/

/-- Escape one character the way `json.dumps` does for the characters that
can occur in this client (quote, backslash and the common control chars). -/
def escapeJsonChar (c : Char) : String :=
  if c == '"' then "\\\""
  else if c == '\\' then "\\\\"
  else if c == '\n' then "\\n"
  else if c == '\t' then "\\t"
  else if c == '\r' then "\\r"
  else String.singleton c

/-- Escape a string for inclusion in a JSON document. -/
def escapeJson (s : String) : String :=
  String.join (s.toList.map escapeJsonChar)

mutual

/-- `json.dumps` with the Python default separators. -/
def dumpsJson : Json → String
  | .null => "null"
  | .bool true => "true"
  | .bool false => "false"
  | .num n => toString n
  | .str s => "\"" ++ escapeJson s ++ "\""
  | .obj ms => "\x7b" ++ String.intercalate ", " (dumpsMembers ms) ++ "\x7d"

/-- Serialize the members of a JSON object, in order. -/
def dumpsMembers : List (String × Json) → List String
  | [] => []
  | (k, v) :: rest => ("\"" ++ escapeJson k ++ "\": " ++ dumpsJson v) :: dumpsMembers rest

end

/-- Skip JSON whitespace. -/
def skipWs : List Char → List Char
  | c :: cs => if c == ' ' || c == '\t' || c == '\n' || c == '\r' then skipWs cs else c :: cs
  | [] => []

/-- Parse the body of a JSON string literal, after the opening quote,
returning the string and the input after the closing quote. -/
def parseStrBody (fuel : Nat) (cs : List Char) (acc : List Char) : Option (String × List Char) :=
  match fuel, cs with
  | 0, _ => none
  | _, [] => none
  | fuel + 1, c :: rest =>
    if c == '"' then some (String.mk acc.reverse, rest)
    else if c == '\\' then
      match rest with
      | [] => none
      | e :: rest₂ =>
        if e == '"' then parseStrBody fuel rest₂ ('"' :: acc)
        else if e == '\\' then parseStrBody fuel rest₂ ('\\' :: acc)
        else if e == '/' then parseStrBody fuel rest₂ ('/' :: acc)
        else if e == 'n' then parseStrBody fuel rest₂ ('\n' :: acc)
        else if e == 't' then parseStrBody fuel rest₂ ('\t' :: acc)
        else if e == 'r' then parseStrBody fuel rest₂ ('\r' :: acc)
        else none
    else parseStrBody fuel rest (c :: acc)

/-- Parse a run of decimal digits into a natural number. -/
def parseDigits : List Char → Option (Nat × List Char)
  | c :: cs =>
    if c.isDigit then
      let rec go : List Char → Nat → Nat × List Char
        | d :: ds, acc => if d.isDigit then go ds (acc * 10 + (d.toNat - 48)) else (acc, d :: ds)
        | [], acc => (acc, [])
      some (go cs (c.toNat - 48))
    else none
  | [] => none

mutual

/-- Recursive-descent JSON value parser (fuel-indexed). -/
def parseValue : Nat → List Char → Option (Json × List Char)
  | 0, _ => none
  | fuel + 1, cs =>
    match skipWs cs with
    | [] => none
    | c :: rest =>
      if c == '"' then
        match parseStrBody (fuel + 1) rest [] with
        | some (s, rest₂) => some (.str s, rest₂)
        | none => none
      else if c == 't' then
        match rest with
        | 'r' :: 'u' :: 'e' :: rest₂ => some (.bool true, rest₂)
        | _ => none
      else if c == 'f' then
        match rest with
        | 'a' :: 'l' :: 's' :: 'e' :: rest₂ => some (.bool false, rest₂)
        | _ => none
      else if c == 'n' then
        match rest with
        | 'u' :: 'l' :: 'l' :: rest₂ => some (.null, rest₂)
        | _ => none
      else if c == '\x7b' then
        match skipWs rest with
        | '\x7d' :: rest₂ => some (.obj [], rest₂)
        | rest₂ =>
          match parseMembers fuel rest₂ with
          | some (ms, rest₃) => some (.obj ms, rest₃)
          | none => none
      else if c == '-' then
        match parseDigits rest with
        | some (n, rest₂) => some (.num (-(n : Int)), rest₂)
        | none => none
      else
        match parseDigits (c :: rest) with
        | some (n, rest₂) => some (.num (n : Int), rest₂)
        | none => none

/-- Parse the members of a JSON object, the opening brace consumed and the
object known to be nonempty; consumes the closing brace. -/
def parseMembers : Nat → List Char → Option (List (String × Json) × List Char)
  | 0, _ => none
  | fuel + 1, cs =>
    match skipWs cs with
    | '"' :: rest =>
      match parseStrBody (fuel + 1) rest [] with
      | some (k, rest₂) =>
        match skipWs rest₂ with
        | ':' :: rest₃ =>
          match parseValue fuel rest₃ with
          | some (v, rest₄) =>
            match skipWs rest₄ with
            | ',' :: rest₅ =>
              match parseMembers fuel rest₅ with
              | some (ms, rest₆) => some ((k, v) :: ms, rest₆)
              | none => none
            | '\x7d' :: rest₅ => some ([(k, v)], rest₅)
            | _ => none
          | none => none
        | _ => none
      | none => none
    | _ => none

end

/-- `json.loads`: parse a complete JSON document. -/
def loadsJson (s : String) : Option Json :=
  match parseValue (s.length + 1) s.toList with
  | some (j, rest) => if skipWs rest == [] then some j else none
  | none => none

example : loadsJson "\x7b\"a\": true, \"b\": \"x\"\x7d" =
    some (.obj [("a", .bool true), ("b", .str "x")]) := by rfl

/-! ## Credentials and `check_and_refresh_access_token`

`DropboxAPI` keeps the OAuth2 fields as instance attributes; here they form
a `Creds` record.  Python truthiness of the optional string/int fields is
made explicit (`None` and the empty string / zero are falsy).
-/

/-- The OAuth2 credential fields of a `DropboxAPI` instance. -/
structure Creds where
  accessToken : Option String
  refreshToken : Option String
  appKey : Option String
  appSecret : Option String
  accessTokenExpiration : Option Int
deriving Repr, DecidableEq

/-- Python truthiness of an optional string (`None` and `""` are falsy). -/
def truthyStr : Option String → Bool
  | none => false
  | some s => s != ""

/-- Python truthiness of an optional integer (`None` and `0` are falsy). -/
def truthyInt : Option Int → Bool
  | none => false
  | some n => n != 0

/-- `TOKEN_EXPIRATION_BUFFER = 60*5` from the module constants. -/
def TOKEN_EXPIRATION_BUFFER : Int := 60 * 5

/-- `can_refresh = self._oauth2_refresh_token and self._app_key`. -/
def canRefresh (c : Creds) : Bool :=
  truthyStr c.refreshToken && truthyStr c.appKey

/-- `needs_refresh = refresh_token and (not expiration or now + buffer >= expiration)`;
the `not expiration` disjunct is Python falsiness, satisfied both by `None`
and by a stored `0`. -/
def needsRefresh (c : Creds) (now : Int) : Bool :=
  truthyStr c.refreshToken &&
    (match c.accessTokenExpiration with
     | none => true
     | some e => e == 0 || decide (now + TOKEN_EXPIRATION_BUFFER ≥ e))

/-- `needs_token = not self._oauth2_access_token`. -/
def needsToken (c : Creds) : Bool :=
  !truthyStr c.accessToken

/-- The guard of `check_and_refresh_access_token`:
`(needs_refresh or needs_token) and can_refresh`. -/
def refreshDecision (c : Creds) (now : Int) : Bool :=
  (needsRefresh c now || needsToken c) && canRefresh c

/-- `check_and_refresh_access_token`, with the singleton clock made an
explicit `now` and the network-performing `refresh_access_token` an explicit
`refreshFn` (which may itself raise, through
`raise_dropbox_error_for_resp` on the token-endpoint response).  Returns the
resulting credentials and whether a refresh was performed; when the guard is
false the method simply falls through, changing nothing and raising
nothing. -/
def check_and_refresh_access_token {ε : Type} (c : Creds) (now : Int)
    (refreshFn : Creds → Except ε Creds) : Except ε (Creds × Bool) :=
  if refreshDecision c now then (refreshFn c).map (fun c₂ => (c₂, true))
  else .ok (c, false)

/-! ## `DropboxAPI.__init__` validation -/

/-- The `ValueError`s `__init__` can raise, in source order.  Every variant
is a `ValueError` in the source; the constructor only distinguishes the
message. -/
inductive InitError where
  | credentialsMissing
  | sessionMissing
  | sessionWrongType
  | headersWrongType
  | appKeyRequired
deriving Repr, DecidableEq

/-- The constructor arguments that participate in `__init__`'s validation.
The session and headers objects are abstracted to whether they were passed
and whether they have the required type. -/
structure InitArgs where
  oauth2AccessToken : Option String
  oauth2RefreshToken : Option String
  appKey : Option String
  appSecret : Option String
  sessionGiven : Bool
  sessionIsSession : Bool
  headersGiven : Bool
  headersIsDict : Bool
deriving Repr, DecidableEq

/-- The validation sequence of `DropboxAPI.__init__` (each failure is a
`raise ValueError(...)` in the source, in this order). -/
def dropboxInit (a : InitArgs) : Except InitError Unit :=
  if !(truthyStr a.oauth2AccessToken || truthyStr a.oauth2RefreshToken ||
       (truthyStr a.appKey && truthyStr a.appSecret)) then
    .error .credentialsMissing
  else if !a.sessionGiven then
    .error .sessionMissing
  else if !a.sessionIsSession then
    .error .sessionWrongType
  else if a.headersGiven && !a.headersIsDict then
    .error .headersWrongType
  else if truthyStr a.oauth2RefreshToken && !truthyStr a.appKey then
    .error .appKeyRequired
  else
    .ok ()

/-! ## HTTP responses and `raise_dropbox_error_for_resp` -/

/-- The slice of an HTTP response the client reads: status code, three
headers, and the body through its three accessors.  `bodyJson = none`
models a body on which `res.json()` raises `ValueError`. -/
structure Response where
  status : Nat
  contentType : Option String
  retryAfterHdr : Option String
  requestId : Option String
  bodyJson : Option Json
  text : String
  content : String
deriving Repr

/-- The exceptions the client raises.  `pyError` stands for a plain Python
exception escaping the method (`KeyError`, `TypeError`, `ValueError`,
`AssertionError`), which none of the `except` clauses of the retry loop
catch. -/
inductive DbxError where
  | internalServerError (requestId : Option String) (status : Nat) (body : String)
  | badInputError (requestId : Option String) (message : String)
  | authError (requestId : Option String) (error : Json)
  | pathRootError (requestId : Option String) (error : Json)
  | rateLimitError (requestId : Option String) (error : Option Json) (backoff : Option Int)
  | httpError (requestId : Option String) (status : Nat) (body : String)
  | pyError (kind : String)
deriving Repr

/-- Python `int(s)` on a header value: an optional minus sign followed by
digits (surrounding-whitespace stripping is not needed for the headers this
client reads); anything else raises `ValueError` (`none`). -/
def parsePyInt (s : String) : Option Int :=
  match s.toList with
  | '-' :: rest =>
    match parseDigits rest with
    | some (n, []) => some (-(n : Int))
    | _ => none
  | cs =>
    match parseDigits cs with
    | some (n, []) => some ((n : Int))
    | _ => none

/-- `raise_dropbox_error_for_resp`: classify a response, `.ok` meaning the
method returns without raising (the 403/404/409 pass-through band and the
success band), `.error` meaning it raises.  In the 400 branch only
`ValueError` (an unparsable body) is caught and turned into
`BadInputError`; a `KeyError`/`TypeError` from `res.json()['error']`
escapes.  In the 429 JSON branch a non-integer `retry_after` value, which in
the source would only fail later at `time.sleep`, is reported as the
`TypeError` here. -/
def raise_dropbox_error_for_resp (r : Response) : Except DbxError Unit :=
  if r.status ≥ 500 then
    .error (.internalServerError r.requestId r.status r.text)
  else if r.status == 400 then
    match r.bodyJson with
    | none => .error (.badInputError r.requestId r.text)
    | some j =>
      match pyIndex j "error" with
      | .error k => .error (.pyError k)
      | .ok v =>
        if v == Json.str "invalid_grant" then
          .error (.authError r.requestId (.str "invalid_access_token"))
        else
          .error (.badInputError r.requestId r.text)
  else if r.status == 401 then
    if r.contentType == some "application/json" then
      match r.bodyJson with
      | none => .error (.pyError "ValueError")
      | some j =>
        match pyIndex j "error" with
        | .error k => .error (.pyError k)
        | .ok v =>
          match pyIndex v ".tag" with
          | .error k => .error (.pyError k)
          | .ok tag => .error (.authError r.requestId tag)
    else
      .error (.pyError "AssertionError")
  else if r.status == 422 then
    match r.bodyJson with
    | none => .error (.pyError "ValueError")
    | some j =>
      match pyIndex j "error" with
      | .error k => .error (.pyError k)
      | .ok v => .error (.pathRootError r.requestId v)
  else if r.status == 429 then
    if r.contentType == some "application/json" then
      match r.bodyJson with
      | none => .error (.pyError "ValueError")
      | some j =>
        match pyIndex j "error" with
        | .error k => .error (.pyError k)
        | .ok errv =>
          match pyIndex errv "retry_after" with
          | .error k => .error (.pyError k)
          | .ok (.num t) => .error (.rateLimitError r.requestId (some errv) (some t))
          | .ok _ => .error (.pyError "TypeError")
    else
      match r.retryAfterHdr with
      | some s =>
        match parsePyInt s with
        | some t => .error (.rateLimitError r.requestId none (some t))
        | none => .error (.pyError "ValueError")
      | none => .error (.rateLimitError r.requestId none none)
  else if r.status == 403 || r.status == 404 || r.status == 409 then
    .ok ()
  else if !(200 ≤ r.status && r.status ≤ 299) then
    .error (.httpError r.requestId r.status r.text)
  else
    .ok ()

/-! ## The retry loop `post_request_json_string_with_retry` -/

/-- The retry ceilings of the client
(`max_retries_on_error`, `max_retries_on_rate_limit`). -/
structure RetryConfig where
  maxRetriesOnError : Nat
  maxRetriesOnRateLimit : Option Nat
deriving Repr, DecidableEq

/-- What a successful logical call returns: the parsed JSON body, or, for
the 403/404/409 pass-through band, the decoded raw body string. -/
inductive ExecReturn where
  | jsonBody (j : Json)
  | passthrough (raw : String)
deriving Repr

/-- Observable side effects of one logical call: token refreshes and
`time.sleep` calls with their duration in seconds. -/
inductive ExecEvent where
  | refreshed
  | slept (seconds : ℚ)
deriving Repr, DecidableEq

/-- The rate-limit retry guard:
`max_retries_on_rate_limit is None or max_retries_on_rate_limit >= rate_limit_errors`,
evaluated after the counter has been incremented. -/
def rateLimitRetryOk : Option Nat → Nat → Bool
  | none, _ => true
  | some m, count => decide (count ≤ m)

/-- The sleep duration of the rate-limit branch:
`e.backoff if e.backoff is not None else 5.0`. -/
def backoffSeconds : Option Int → ℚ
  | some t => (t : ℚ)
  | none => 5

/-- What one iteration of the retry loop does next: terminate the logical
call with a result, or loop again with updated counters. -/
inductive StepOut where
  | finish (events : List ExecEvent) (result : Except DbxError ExecReturn)
  | again (events : List ExecEvent) (attempt rlCount : Nat) (hasRefreshed : Bool)
deriving Repr

/-- One iteration of the `while True` body: classify the next response,
then either terminate the call (`finish`, with the events this iteration
emitted) or go around again (`again`, with the events emitted and the
updated counters). -/
def loopStep (cfg : RetryConfig) (jitter : Nat → ℚ) (refreshOutcome : Except DbxError Unit)
    (r : Response) (attempt rlCount : Nat) (hasRefreshed : Bool) : StepOut :=
  match raise_dropbox_error_for_resp r with
  | .ok _ =>
    if r.status == 403 || r.status == 404 || r.status == 409 then
      .finish [] (.ok (.passthrough r.content))
    else if r.contentType == some "application/json" then
      match r.bodyJson with
      | some j => .finish [] (.ok (.jsonBody j))
      | none => .finish [] (.error (.pyError "ValueError"))
    else
      .finish [] (.error (.pyError "AssertionError"))
  | .error (.authError rid tag) =>
    if pyTruthy tag && tag == Json.str "expired_access_token" then
      if hasRefreshed then
        .finish [] (.error (.authError rid tag))
      else
        match refreshOutcome with
        | .ok _ => .again [.refreshed] attempt rlCount true
        | .error re => .finish [.refreshed] (.error re)
    else
      .finish [] (.error (.authError rid tag))
  | .error (.internalServerError rid s b) =>
    if attempt + 1 ≤ cfg.maxRetriesOnError then
      .again [.slept (2 ^ (attempt + 1) * jitter (attempt + 1))] (attempt + 1) rlCount hasRefreshed
    else
      .finish [] (.error (.internalServerError rid s b))
  | .error (.rateLimitError rid err backoff) =>
    if rateLimitRetryOk cfg.maxRetriesOnRateLimit (rlCount + 1) then
      .again [.slept (backoffSeconds backoff)] attempt (rlCount + 1) hasRefreshed
    else
      .finish [] (.error (.rateLimitError rid err backoff))
  | .error e => .finish [] (.error e)

/-- The `while True` loop of `post_request_json_string_with_retry`, run
against a scripted transport: each iteration consumes the next `Response`
from the list (an exhausted script is reported as a `pyError` marker and
never reached by the theorems below).  `jitter` is the stream of
`random.random()` draws, indexed by the attempt counter at the time of the
draw; `refreshOutcome` is what a call to `refresh_access_token` does (it may
itself raise on the token-endpoint response, which the loop's `except`
clauses do not intercept — the handler runs outside the `try`).  Returns the
event trace and the result of the call. -/
def runLoop (cfg : RetryConfig) (jitter : Nat → ℚ) (refreshOutcome : Except DbxError Unit) :
    List Response → Nat → Nat → Bool → List ExecEvent × Except DbxError ExecReturn
  | [], _, _, _ => ([], .error (.pyError "transport script exhausted"))
  | r :: rest, attempt, rlCount, hasRefreshed =>
    match loopStep cfg jitter refreshOutcome r attempt rlCount hasRefreshed with
    | .finish evs res => (evs, res)
    | .again evs attempt₂ rlCount₂ hasRefreshed₂ =>
      let p := runLoop cfg jitter refreshOutcome rest attempt₂ rlCount₂ hasRefreshed₂
      (evs ++ p.1, p.2)

/-! ## Facade helpers: `path_exists` and `files_upload` -/

/-- Python subscription on the value a logical call returns: the success
band yields a decoded dict, the 403/404/409 pass-through band yields the
body as a `str`, and subscripting a `str` with a string key raises
`TypeError`. -/
def execReturnIndex (res : ExecReturn) (key : String) : Except String Json :=
  match res with
  | .jsonBody j => pyIndex j key
  | .passthrough _ => .error "TypeError"

/-- `path_exists`: applied to what `files_get_metadata` returned.  The
source reads `res[".tag"]` (twice) and returns `True` for `folder` or
`file`, `False` otherwise. -/
def path_exists (res : ExecReturn) : Except String Bool :=
  match execReturnIndex res ".tag" with
  | .error e => .error e
  | .ok v =>
    if v == Json.str "folder" then .ok true
    else if v == Json.str "file" then .ok true
    else .ok false

/-- The headers `files_upload` builds (before the executor adds
`User-Agent` and `Authorization`). -/
def files_upload_headers (path writemode : String) : List (String × String) :=
  [("Content-Type", "application/octet-stream"),
   ("Dropbox-API-Arg", dumpsJson (.obj
      [("path", .str path),
       ("mode", .str writemode),
       ("autorename", .bool true),
       ("mute", .bool false),
       ("strict_conflict", .bool false)]))]

/-! ## Concrete responses used by witnesses and counterexamples -/

/-- A 200 response carrying a JSON payload. -/
def respOkJson (j : Json) : Response :=
  ⟨200, some "application/json", none, none, some j, "", ""⟩

/-- A 400 response whose JSON body is `\x7b"error": "invalid_grant"\x7d`. -/
def resp400invalidGrant : Response :=
  ⟨400, some "application/json", none, none,
   some (.obj [("error", .str "invalid_grant")]), "invalid_grant body", ""⟩

/-- A 401 response whose body tags the error `expired_access_token`. -/
def resp401expired : Response :=
  ⟨401, some "application/json", none, none,
   some (.obj [("error", .obj [(".tag", .str "expired_access_token")])]), "", ""⟩

/-- A 429 response with no JSON body and header `retry-after: 3`. -/
def resp429hdr3 : Response :=
  ⟨429, some "text/plain", some "3", none, none, "", ""⟩

/-- A 503 response. -/
def resp503 : Response :=
  ⟨503, some "text/plain", none, none, none, "Service Unavailable", ""⟩

/-- A 409 not-found response as the Dropbox API sends it: JSON text in the
body, returned by the executor as a decoded `str` (pass-through band). -/
def resp409notFound : Response :=
  ⟨409, some "application/json", none, none,
   some (.obj [("error_summary", .str "path/not_found/.."),
               ("error", .obj [(".tag", .str "path"),
                               ("path", .obj [(".tag", .str "not_found")])])]),
   "", "\x7b\"error_summary\": \"path/not_found/..\"\x7d"⟩

/-! ## Remaining definitions used by the theorems -/

/-- The refresh condition exactly as the claim states it: refresh iff
`(no access_token set ∨ now + expiry_buffer_sec ≥ access_token_expiry) ∧
refresh_token ∧ app_key`, where the expiry comparison requires an expiry
value to compare with. -/
def specRefreshCond (c : Creds) (now : Int) : Bool :=
  (!truthyStr c.accessToken ||
    (match c.accessTokenExpiration with
     | some e => decide (now + TOKEN_EXPIRATION_BUFFER ≥ e)
     | none => false)) &&
  (truthyStr c.refreshToken && truthyStr c.appKey)

/-- A state with an access token, no stored expiry, and refresh possible. -/
def credsNoExpiry : Creds := ⟨some "T", some "R", some "K", none, none⟩

/-- A constructible state (app key and secret present) with no access token
and refresh impossible (no refresh token). -/
def credsNoTokenNoRefresh : Creds := ⟨none, none, some "K", some "S", none⟩

/-- Recognizer for the refresh event, used to count refreshes in a trace. -/
def isRefreshEvent : ExecEvent → Bool
  | .refreshed => true
  | .slept _ => false

/-! ## C8: upload header round-trip -/

/-- C8: for the upload operation with `path="/a/b.jpg"` and
`mode="overwrite"`, the built request carries a `Dropbox-API-Arg` header
whose JSON-decoded value is exactly
`\x7bpath: "/a/b.jpg", mode: "overwrite", autorename: true, mute: false,
strict_conflict: false\x7d`. -/
theorem upload_api_arg_roundtrip :
    ((files_upload_headers "/a/b.jpg" "overwrite").lookup "Dropbox-API-Arg").bind loadsJson =
      some (.obj [("path", .str "/a/b.jpg"),
                  ("mode", .str "overwrite"),
                  ("autorename", .bool true),
                  ("mute", .bool false),
                  ("strict_conflict", .bool false)]) := by
  rfl

/-! ## C9: construction requires an app key alongside a refresh token -/

/-- C9: client construction raises `ValueError` whenever a refresh token is
supplied without an app key, even when an access token is also supplied and
the at-least-one-of credential invariant is satisfied. -/
theorem init_refresh_token_requires_app_key (a : InitArgs)
    (hrt : truthyStr a.oauth2RefreshToken = true)
    (hak : truthyStr a.appKey = false) :
    ∃ e, dropboxInit a = .error e := by
  unfold dropboxInit
  split
  · exact ⟨_, rfl⟩
  · split
    · exact ⟨_, rfl⟩
    · split
      · exact ⟨_, rfl⟩
      · split
        · exact ⟨_, rfl⟩
        · rw [if_pos (by simp [hrt, hak])]
          exact ⟨_, rfl⟩

/-- Witness for C9 at a concrete argument record that also carries an access
token and a valid session. -/
theorem init_refresh_token_requires_app_key_witness :
    truthyStr (InitArgs.oauth2RefreshToken ⟨some "T", some "R", none, none, true, true, false, true⟩) = true ∧
    truthyStr (InitArgs.appKey ⟨some "T", some "R", none, none, true, true, false, true⟩) = false ∧
    ∃ e, dropboxInit ⟨some "T", some "R", none, none, true, true, false, true⟩ = .error e :=
  ⟨rfl, rfl, init_refresh_token_requires_app_key _ rfl rfl⟩

/-! ## C1: `path_exists` on metadata results -/

/-- C1: on a decoded-dict metadata result `path_exists` returns `true` for
tag `folder` or `file` and `false` for any other tag, but on a 403/404/409
pass-through — where `files_get_metadata` hands back the body as a `str` —
the subscription `res[".tag"]` raises `TypeError`, so `path_exists` does
not return `false` there (contradicting its own docstring, which promises
`False` when the path does not exist). -/
theorem path_exists_tag_and_passthrough :
    path_exists (.jsonBody (.obj [(".tag", .str "folder")])) = .ok true ∧
    path_exists (.jsonBody (.obj [(".tag", .str "file")])) = .ok true ∧
    path_exists (.jsonBody (.obj [(".tag", .str "deleted")])) = .ok false ∧
    (∀ raw : String, path_exists (.passthrough raw) = .error "TypeError") ∧
    path_exists (.passthrough resp409notFound.content) = .error "TypeError" :=
  ⟨rfl, rfl, rfl, fun _ => rfl, rfl⟩

/-! ## C3: the refresh condition of `check_and_refresh_access_token` -/

/-- C3 counterexample: with an access token present, no expiry stored, and
refresh possible, the code refreshes (the `not expiration` disjunct of
`needs_refresh` fires) although the claim's condition is false — the
claimed iff fails at this state. -/
theorem check_refresh_iff_counterexample :
    refreshDecision credsNoExpiry 1000 = true ∧
    specRefreshCond credsNoExpiry 1000 = false ∧
    check_and_refresh_access_token (ε := Unit) credsNoExpiry 1000 (fun c => .ok c) =
      .ok (credsNoExpiry, true) :=
  ⟨rfl, rfl, rfl⟩

/-- C3 amended: `check_and_refresh_access_token` refreshes iff
`(no access_token ∨ no expiry stored (Python-falsy) ∨ now + buffer ≥ expiry)
∧ refresh_token ∧ app_key`; in every other state it returns the credentials
unchanged without refreshing. -/
theorem check_refresh_iff_amended {ε : Type} (c : Creds) (now : Int)
    (f : Creds → Except ε Creds) :
    (refreshDecision c now =
      ((!truthyStr c.accessToken ||
         (match c.accessTokenExpiration with
          | none => true
          | some e => e == 0 || decide (now + TOKEN_EXPIRATION_BUFFER ≥ e))) &&
       (truthyStr c.refreshToken && truthyStr c.appKey))) ∧
    (refreshDecision c now = false →
      check_and_refresh_access_token c now f = .ok (c, false)) := by
  constructor
  · unfold refreshDecision needsRefresh needsToken canRefresh
    cases truthyStr c.refreshToken <;> cases truthyStr c.accessToken <;>
      cases truthyStr c.appKey <;> simp [Bool.or_comm]
  · intro h
    simp [check_and_refresh_access_token, h]

/-- Witness for C3's amended theorem at a state where the decision is
false (valid far-future expiry). -/
theorem check_refresh_iff_amended_witness :
    refreshDecision ⟨some "T", some "R", some "K", none, some 99999⟩ 1000 = false ∧
    check_and_refresh_access_token (ε := Unit) ⟨some "T", some "R", some "K", none, some 99999⟩ 1000
      (fun c => .ok c) = .ok (⟨some "T", some "R", some "K", none, some 99999⟩, false) :=
  ⟨rfl, (check_refresh_iff_amended ⟨some "T", some "R", some "K", none, some 99999⟩ 1000
      (fun c => .ok c)).2 rfl⟩

/-! ## C7: no token and no way to refresh -/

/-- C7 counterexample: with no access token and refresh impossible the
method does not fail at all — it returns normally with the credentials
unchanged (there is no `AuthError(NoToken)` anywhere in the code), refuting
the claim that `ensure_valid()` fails with `AuthError(NoToken)` here. -/
theorem ensure_valid_no_token_counterexample :
    truthyStr credsNoTokenNoRefresh.accessToken = false ∧
    canRefresh credsNoTokenNoRefresh = false ∧
    check_and_refresh_access_token (ε := Unit) credsNoTokenNoRefresh 1000 (fun c => .ok c) =
      .ok (credsNoTokenNoRefresh, false) :=
  ⟨rfl, rfl, rfl⟩

/-- C7 amended: in every credential state with no access token and refresh
impossible, `check_and_refresh_access_token` is a no-op — it neither
refreshes nor raises; the subsequent request simply proceeds without a
valid token. -/
theorem ensure_valid_no_token_noop {ε : Type} (c : Creds) (now : Int)
    (f : Creds → Except ε Creds)
    (_htok : truthyStr c.accessToken = false)
    (hcan : canRefresh c = false) :
    check_and_refresh_access_token c now f = .ok (c, false) := by
  have hdec : refreshDecision c now = false := by
    simp [refreshDecision, hcan]
  simp [check_and_refresh_access_token, hdec]

/-- Witness for C7's amended theorem at the concrete state above. -/
theorem ensure_valid_no_token_noop_witness :
    check_and_refresh_access_token (ε := Unit) credsNoTokenNoRefresh 1000 (fun c => .ok c) =
      .ok (credsNoTokenNoRefresh, false) :=
  ensure_valid_no_token_noop credsNoTokenNoRefresh 1000 (fun c => .ok c) rfl rfl

/-! ## Loop unfolding helpers -/

/-- Unfolding lemma: the loop on an exhausted script. -/
theorem runLoop_nil (cfg : RetryConfig) (jitter : Nat → ℚ) (ro : Except DbxError Unit)
    (a rl : Nat) (href : Bool) :
    runLoop cfg jitter ro [] a rl href = ([], .error (.pyError "transport script exhausted")) := by
  rfl

/-- Unfolding lemma: one iteration of the loop. -/
theorem runLoop_cons (cfg : RetryConfig) (jitter : Nat → ℚ) (ro : Except DbxError Unit)
    (r : Response) (rest : List Response) (a rl : Nat) (href : Bool) :
    runLoop cfg jitter ro (r :: rest) a rl href =
      match loopStep cfg jitter ro r a rl href with
      | .finish evs res => (evs, res)
      | .again evs a₂ rl₂ href₂ =>
        (evs ++ (runLoop cfg jitter ro rest a₂ rl₂ href₂).1,
         (runLoop cfg jitter ro rest a₂ rl₂ href₂).2) := by
  rfl

/-- A 2xx response passes the classifier without raising. -/
theorem classify_success (r : Response) (h2 : 200 ≤ r.status) (h3 : r.status ≤ 299) :
    raise_dropbox_error_for_resp r = .ok () := by
  unfold raise_dropbox_error_for_resp
  rw [if_neg (by omega), if_neg (by simp; omega), if_neg (by simp; omega),
    if_neg (by simp; omega), if_neg (by simp; omega), if_neg (by simp; omega),
    if_neg (by simp; omega)]

/-! ## C2: 400 / `invalid_grant` -/

/-- C2 counterexample: a 400 response whose body error is `invalid_grant`
is classified as `AuthError` with tag `invalid_access_token` — not
`expired_access_token` — and the retry loop therefore propagates it
terminally with an empty event trace (no refresh, no retry), even though a
perfectly good 200 response is next in the transport script. -/
theorem invalid_grant_no_refresh_counterexample :
    raise_dropbox_error_for_resp resp400invalidGrant =
      .error (.authError none (.str "invalid_access_token")) ∧
    runLoop ⟨4, none⟩ (fun _ => 0) (.ok ())
        [resp400invalidGrant, respOkJson (.obj [])] 0 0 false =
      ([], .error (.authError none (.str "invalid_access_token"))) :=
  ⟨rfl, rfl⟩

/-- C2 amended: a 400 response whose JSON body's `error` equals
`invalid_grant` is classified as `AuthError` with tag
`invalid_access_token`; since the executor's refresh branch requires the
tag `expired_access_token`, such an error propagates terminally on its
first occurrence, with no refresh and no retry. -/
theorem invalid_grant_terminal (r : Response) (j : Json)
    (hst : r.status = 400)
    (hbody : r.bodyJson = some j)
    (herr : pyIndex j "error" = .ok (.str "invalid_grant")) :
    raise_dropbox_error_for_resp r =
      .error (.authError r.requestId (.str "invalid_access_token")) ∧
    ∀ (cfg : RetryConfig) (jitter : Nat → ℚ) (ro : Except DbxError Unit)
      (rest : List Response) (attempt rlCount : Nat) (hasRefreshed : Bool),
      runLoop cfg jitter ro (r :: rest) attempt rlCount hasRefreshed =
        ([], .error (.authError r.requestId (.str "invalid_access_token"))) := by
  have hclass : raise_dropbox_error_for_resp r =
      .error (.authError r.requestId (.str "invalid_access_token")) := by
    unfold raise_dropbox_error_for_resp
    rw [if_neg (by omega), if_pos (by simp [hst]), hbody]
    simp only [herr]
    rfl
  refine ⟨hclass, fun cfg jitter ro rest attempt rlCount hasRefreshed => ?_⟩
  have hstep : loopStep cfg jitter ro r attempt rlCount hasRefreshed =
      .finish [] (.error (.authError r.requestId (.str "invalid_access_token"))) := by
    unfold loopStep
    rw [hclass]
    rfl
  rw [runLoop_cons, hstep]

/-- Witness for C2's amended theorem at the concrete 400 response. -/
theorem invalid_grant_terminal_witness :
    runLoop ⟨4, none⟩ (fun _ => 0) (.ok ())
        [resp400invalidGrant] 0 0 false =
      ([], .error (.authError none (.str "invalid_access_token"))) :=
  (invalid_grant_terminal resp400invalidGrant (.obj [("error", .str "invalid_grant")])
      rfl rfl rfl).2 ⟨4, none⟩ (fun _ => 0) (.ok ()) [] 0 0 false

/-! ## C10: the success branch asserts the content type -/

/-- C10: for every 200–299 response the executor returns the parsed JSON
body only when the `content-type` header equals `application/json`; any
other content type trips the `assert` in the success branch
(`AssertionError`) instead of returning the body. -/
theorem success_branch_content_type (cfg : RetryConfig) (jitter : Nat → ℚ)
    (ro : Except DbxError Unit) (rest : List Response) (r : Response)
    (h2 : 200 ≤ r.status) (h3 : r.status ≤ 299) :
    (∀ j, r.contentType = some "application/json" → r.bodyJson = some j →
      runLoop cfg jitter ro (r :: rest) 0 0 false = ([], .ok (.jsonBody j))) ∧
    (r.contentType ≠ some "application/json" →
      runLoop cfg jitter ro (r :: rest) 0 0 false =
        ([], .error (.pyError "AssertionError"))) := by
  have hpass : (r.status == 403 || r.status == 404 || r.status == 409) = false := by
    simp; omega
  constructor
  · intro j hct hbody
    have hstep : loopStep cfg jitter ro r 0 0 false = .finish [] (.ok (.jsonBody j)) := by
      unfold loopStep
      rw [classify_success r h2 h3]
      simp [hpass, hct, hbody]
    rw [runLoop_cons, hstep]
  · intro hct
    have hctb : (r.contentType == some "application/json") = false := by
      simpa using hct
    have hstep : loopStep cfg jitter ro r 0 0 false =
        .finish [] (.error (.pyError "AssertionError")) := by
      unfold loopStep
      rw [classify_success r h2 h3]
      simp [hpass, hctb]
    rw [runLoop_cons, hstep]

/-- Witness for C10 at a 200 JSON response and at a 204 octet-stream
response. -/
theorem success_branch_content_type_witness :
    runLoop ⟨4, none⟩ (fun _ => 0) (.ok ()) [respOkJson (.obj [])] 0 0 false =
      ([], .ok (.jsonBody (.obj []))) ∧
    runLoop ⟨4, none⟩ (fun _ => 0) (.ok ())
        [⟨204, some "application/octet-stream", none, none, none, "", ""⟩] 0 0 false =
      ([], .error (.pyError "AssertionError")) :=
  ⟨(success_branch_content_type ⟨4, none⟩ (fun _ => 0) (.ok ()) [] (respOkJson (.obj []))
      (by decide) (by decide)).1 (.obj []) rfl rfl,
   (success_branch_content_type ⟨4, none⟩ (fun _ => 0) (.ok ()) []
      ⟨204, some "application/octet-stream", none, none, none, "", ""⟩
      (by decide) (by decide)).2 (by decide)⟩

/-! ## C4: refresh happens at most once per logical call -/

/-- With the refreshed flag set, one iteration either terminates with no
events or retries with a single sleep, keeping the flag set. -/
theorem loopStep_true_cases (cfg : RetryConfig) (jitter : Nat → ℚ)
    (ro : Except DbxError Unit) (r : Response) (a rl : Nat) :
    (∃ res, loopStep cfg jitter ro r a rl true = .finish [] res) ∨
    (∃ q a₂ rl₂, loopStep cfg jitter ro r a rl true = .again [.slept q] a₂ rl₂ true) := by
  unfold loopStep
  repeat' split
  all_goals first
    | exact Or.inl ⟨_, rfl⟩
    | exact Or.inr ⟨_, _, _, rfl⟩
    | simp_all

/-- With the refreshed flag clear, one iteration terminates with no events,
terminates right after a failed refresh, retries once after a refresh
(setting the flag), or retries with a single sleep (flag still clear). -/
theorem loopStep_false_cases (cfg : RetryConfig) (jitter : Nat → ℚ)
    (ro : Except DbxError Unit) (r : Response) (a rl : Nat) :
    (∃ res, loopStep cfg jitter ro r a rl false = .finish [] res) ∨
    (∃ re, loopStep cfg jitter ro r a rl false = .finish [.refreshed] (.error re)) ∨
    (loopStep cfg jitter ro r a rl false = .again [.refreshed] a rl true) ∨
    (∃ q a₂ rl₂, loopStep cfg jitter ro r a rl false = .again [.slept q] a₂ rl₂ false) := by
  unfold loopStep
  repeat' split
  all_goals first
    | exact Or.inl ⟨_, rfl⟩
    | exact Or.inr (Or.inl ⟨_, rfl⟩)
    | exact Or.inr (Or.inr (Or.inl rfl))
    | exact Or.inr (Or.inr (Or.inr ⟨_, _, _, rfl⟩))

/-- Once the per-call flag is set, no later iteration refreshes. -/
theorem runLoop_true_no_refresh (cfg : RetryConfig) (jitter : Nat → ℚ)
    (ro : Except DbxError Unit) :
    ∀ (script : List Response) (a rl : Nat),
      (runLoop cfg jitter ro script a rl true).1.countP isRefreshEvent = 0 := by
  intro script
  induction script with
  | nil => intro a rl; rw [runLoop_nil]; rfl
  | cons r rest ih =>
    intro a rl
    rw [runLoop_cons]
    rcases loopStep_true_cases cfg jitter ro r a rl with ⟨res, h⟩ | ⟨q, a₂, rl₂, h⟩
    · rw [h]; rfl
    · rw [h]
      simp [List.countP_cons, isRefreshEvent, ih]

/-- Starting with the flag clear, at most one refresh happens. -/
theorem runLoop_false_refresh_le_one (cfg : RetryConfig) (jitter : Nat → ℚ)
    (ro : Except DbxError Unit) :
    ∀ (script : List Response) (a rl : Nat),
      (runLoop cfg jitter ro script a rl false).1.countP isRefreshEvent ≤ 1 := by
  intro script
  induction script with
  | nil => intro a rl; rw [runLoop_nil]; simp
  | cons r rest ih =>
    intro a rl
    rw [runLoop_cons]
    rcases loopStep_false_cases cfg jitter ro r a rl with
      ⟨res, h⟩ | ⟨re, h⟩ | h | ⟨q, a₂, rl₂, h⟩
    · rw [h]; simp
    · rw [h]; simp [List.countP_cons, isRefreshEvent]
    · rw [h]
      simp [List.countP_append, List.countP_cons, isRefreshEvent,
        runLoop_true_no_refresh cfg jitter ro rest a rl]
    · rw [h]
      simpa [List.countP_append, List.countP_cons, isRefreshEvent] using ih a₂ rl₂

/-- C4: within one logical call, refresh happens at most once; and once a
refresh has occurred (flag set), a further `expired_access_token`
classification terminates the call at once, propagating the `AuthError`
with no refresh, no sleep and no retry. -/
theorem refresh_at_most_once_per_call (cfg : RetryConfig) (jitter : Nat → ℚ)
    (ro : Except DbxError Unit) (script : List Response) (attempt rlCount : Nat) :
    (runLoop cfg jitter ro script attempt rlCount false).1.countP isRefreshEvent ≤ 1 ∧
    (runLoop cfg jitter ro script attempt rlCount true).1.countP isRefreshEvent = 0 ∧
    (∀ (r : Response) (rest : List Response) (rid : Option String),
      raise_dropbox_error_for_resp r = .error (.authError rid (.str "expired_access_token")) →
      runLoop cfg jitter ro (r :: rest) attempt rlCount true =
        ([], .error (.authError rid (.str "expired_access_token")))) := by
  refine ⟨runLoop_false_refresh_le_one cfg jitter ro script attempt rlCount,
    runLoop_true_no_refresh cfg jitter ro script attempt rlCount,
    fun r rest rid h => ?_⟩
  have hstep : loopStep cfg jitter ro r attempt rlCount true =
      .finish [] (.error (.authError rid (.str "expired_access_token"))) := by
    unfold loopStep
    rw [h]
    rfl
  rw [runLoop_cons, hstep]

/-- Witness for C4 at a concrete 401 `expired_access_token` response with
the flag already set. -/
theorem refresh_at_most_once_per_call_witness :
    runLoop ⟨4, none⟩ (fun _ => 0) (.ok ()) [resp401expired] 0 0 true =
      ([], .error (.authError none (.str "expired_access_token"))) :=
  (refresh_at_most_once_per_call ⟨4, none⟩ (fun _ => 0) (.ok ()) [resp401expired] 0 0).2.2
    resp401expired [] none rfl

/-! ## C5: exponential backoff on 5xx -/

/-- Unfolding lemma: an iteration whose step terminates the call. -/
theorem runLoop_cons_finish (cfg : RetryConfig) (jitter : Nat → ℚ) (ro : Except DbxError Unit)
    (r : Response) (rest : List Response) (a rl : Nat) (href : Bool)
    (evs : List ExecEvent) (res : Except DbxError ExecReturn)
    (h : loopStep cfg jitter ro r a rl href = .finish evs res) :
    runLoop cfg jitter ro (r :: rest) a rl href = (evs, res) := by
  rw [runLoop_cons, h]

/-- Unfolding lemma: an iteration whose step goes around again. -/
theorem runLoop_cons_again (cfg : RetryConfig) (jitter : Nat → ℚ) (ro : Except DbxError Unit)
    (r : Response) (rest : List Response) (a rl : Nat) (href : Bool)
    (evs : List ExecEvent) (a₂ rl₂ : Nat) (href₂ : Bool)
    (h : loopStep cfg jitter ro r a rl href = .again evs a₂ rl₂ href₂) :
    runLoop cfg jitter ro (r :: rest) a rl href =
      (evs ++ (runLoop cfg jitter ro rest a₂ rl₂ href₂).1,
       (runLoop cfg jitter ro rest a₂ rl₂ href₂).2) := by
  rw [runLoop_cons, h]

/-- A response with a 5xx status classifies as `InternalServerError`. -/
theorem classify_5xx (r : Response) (h : r.status ≥ 500) :
    raise_dropbox_error_for_resp r =
      .error (.internalServerError r.requestId r.status r.text) := by
  unfold raise_dropbox_error_for_resp
  rw [if_pos h]

/-- A 200 JSON response makes the loop return its payload at once. -/
theorem runLoop_okJson (cfg : RetryConfig) (jitter : Nat → ℚ) (ro : Except DbxError Unit)
    (payload : Json) (a rl : Nat) (href : Bool) :
    runLoop cfg jitter ro [respOkJson payload] a rl href = ([], .ok (.jsonBody payload)) := by
  rw [runLoop_cons]
  have hstep : loopStep cfg jitter ro (respOkJson payload) a rl href =
      .finish [] (.ok (.jsonBody payload)) := rfl
  rw [hstep]

/-- While the attempt budget lasts, each `InternalServerError` response
consumes one attempt and one backoff sleep of
`2 ^ attempt * jitter attempt` seconds (post-increment attempt counter). -/
theorem runLoop_ise_replicate (cfg : RetryConfig) (jitter : Nat → ℚ)
    (ro : Except DbxError Unit) (r : Response) (rid : Option String) (s : Nat) (b : String)
    (hr : raise_dropbox_error_for_resp r = .error (.internalServerError rid s b)) :
    ∀ (n a rl : Nat) (href : Bool) (rest : List Response),
      a + n ≤ cfg.maxRetriesOnError →
      runLoop cfg jitter ro (List.replicate n r ++ rest) a rl href =
        (((List.range n).map fun k => ExecEvent.slept (2 ^ (a + k + 1) * jitter (a + k + 1))) ++
           (runLoop cfg jitter ro rest (a + n) rl href).1,
         (runLoop cfg jitter ro rest (a + n) rl href).2) := by
  intro n
  induction n with
  | zero =>
    intro a rl href rest _
    simp
  | succ m ih =>
    intro a rl href rest h
    have hstep : loopStep cfg jitter ro r a rl href =
        .again [.slept (2 ^ (a + 1) * jitter (a + 1))] (a + 1) rl href := by
      unfold loopStep
      simp only [hr]
      rw [if_pos (show a + 1 ≤ cfg.maxRetriesOnError by omega)]
    rw [List.replicate_succ, List.cons_append,
      runLoop_cons_again cfg jitter ro r (List.replicate m r ++ rest) a rl href _ _ _ _ hstep]
    rw [ih (a + 1) rl href rest (by omega)]
    have hidx : a + 1 + m = a + (m + 1) := by omega
    rw [hidx]
    have hmap : (List.range (m + 1)).map
          (fun k => ExecEvent.slept (2 ^ (a + k + 1) * jitter (a + k + 1))) =
        ExecEvent.slept (2 ^ (a + 1) * jitter (a + 1)) ::
          (List.range m).map
            (fun k => ExecEvent.slept (2 ^ (a + 1 + k + 1) * jitter (a + 1 + k + 1))) := by
      rw [List.range_succ_eq_map, List.map_cons, List.map_map]
      simp only [Nat.add_zero]
      congr 1
      refine List.map_congr_left fun k _ => ?_
      have h1 : a + (k + 1) + 1 = a + 1 + k + 1 := by omega
      simp [Function.comp, h1]
    rw [hmap]
    simp

/-- C5: with a transport that yields `max_retries_on_error` 5xx responses
and then a 200, the executor sleeps `2 ^ attempt * jitter attempt` before
each of the `max_retries_on_error` retries and returns the 200 payload;
with one more 5xx it raises `InternalServerError`. -/
theorem server_error_retry_budget (m : Nat) (mrl : Option Nat) (jitter : Nat → ℚ)
    (ro : Except DbxError Unit) (r : Response) (payload : Json)
    (h503 : r.status = 503) :
    runLoop ⟨m, mrl⟩ jitter ro (List.replicate m r ++ [respOkJson payload]) 0 0 false =
      ((List.range m).map fun k => ExecEvent.slept (2 ^ (k + 1) * jitter (k + 1)),
       .ok (.jsonBody payload)) ∧
    runLoop ⟨m, mrl⟩ jitter ro (List.replicate (m + 1) r) 0 0 false =
      ((List.range m).map fun k => ExecEvent.slept (2 ^ (k + 1) * jitter (k + 1)),
       .error (.internalServerError r.requestId 503 r.text)) := by
  have hr : raise_dropbox_error_for_resp r =
      .error (.internalServerError r.requestId 503 r.text) := by
    have h5 := classify_5xx r (by omega)
    rw [h503] at h5
    exact h5
  constructor
  · rw [runLoop_ise_replicate ⟨m, mrl⟩ jitter ro r r.requestId 503 r.text hr m 0 0 false
      [respOkJson payload] (by simp)]
    rw [runLoop_okJson]
    simp
  · have hrep : List.replicate (m + 1) r = List.replicate m r ++ [r] :=
      List.replicate_succ' m r
    rw [hrep, runLoop_ise_replicate ⟨m, mrl⟩ jitter ro r r.requestId 503 r.text hr m 0 0 false
      [r] (by simp)]
    have hstep : loopStep ⟨m, mrl⟩ jitter ro r (0 + m) 0 false =
        .finish [] (.error (.internalServerError r.requestId 503 r.text)) := by
      unfold loopStep
      simp only [hr]
      rw [if_neg (by show ¬(0 + m + 1 ≤ m); omega)]
    rw [runLoop_cons_finish ⟨m, mrl⟩ jitter ro r [] (0 + m) 0 false _ _ hstep]
    simp

/-- Witness for C5: budget of one retry, deterministic zero jitter. -/
theorem server_error_retry_budget_witness :
    runLoop ⟨1, none⟩ (fun _ => 0) (.ok ()) [resp503, respOkJson (.obj [])] 0 0 false =
      ([.slept (2 ^ 1 * (0 : ℚ))], .ok (.jsonBody (.obj []))) ∧
    runLoop ⟨1, none⟩ (fun _ => 0) (.ok ()) [resp503, resp503] 0 0 false =
      ([.slept (2 ^ 1 * (0 : ℚ))], .error (.internalServerError none 503 "Service Unavailable")) := by
  have h := server_error_retry_budget 1 none (fun _ => 0) (.ok ()) resp503 (.obj []) rfl
  constructor
  · have h1 := h.1
    simpa [resp503, List.replicate, List.range] using h1
  · have h2 := h.2
    simpa [resp503, List.replicate, List.range] using h2

/-! ## C6: rate-limit handling -/

/-- While the rate-limit budget allows it (always, when the ceiling is
`None`), each `RateLimitError` response consumes one rate-limit count and
one sleep of `retry_after` seconds (5.0 when unspecified). -/
theorem runLoop_rl_replicate (cfg : RetryConfig) (jitter : Nat → ℚ)
    (ro : Except DbxError Unit) (r : Response)
    (rid : Option String) (errj : Option Json) (bo : Option Int)
    (hr : raise_dropbox_error_for_resp r = .error (.rateLimitError rid errj bo)) :
    ∀ (n a rl : Nat) (href : Bool) (rest : List Response),
      (∀ mm, cfg.maxRetriesOnRateLimit = some mm → rl + n ≤ mm) →
      runLoop cfg jitter ro (List.replicate n r ++ rest) a rl href =
        (List.replicate n (ExecEvent.slept (backoffSeconds bo)) ++
           (runLoop cfg jitter ro rest a (rl + n) href).1,
         (runLoop cfg jitter ro rest a (rl + n) href).2) := by
  intro n
  induction n with
  | zero =>
    intro a rl href rest _
    simp
  | succ m ih =>
    intro a rl href rest hbound
    have hok : rateLimitRetryOk cfg.maxRetriesOnRateLimit (rl + 1) = true := by
      cases hmr : cfg.maxRetriesOnRateLimit with
      | none => rfl
      | some mm =>
        have := hbound mm hmr
        simp only [rateLimitRetryOk, decide_eq_true_eq]
        omega
    have hstep : loopStep cfg jitter ro r a rl href =
        .again [.slept (backoffSeconds bo)] a (rl + 1) href := by
      unfold loopStep
      simp only [hr]
      rw [if_pos hok]
    rw [List.replicate_succ, List.cons_append,
      runLoop_cons_again cfg jitter ro r (List.replicate m r ++ rest) a rl href _ _ _ _ hstep]
    rw [ih a (rl + 1) href rest (fun mm hmr => by have := hbound mm hmr; omega)]
    have hidx : rl + 1 + m = rl + (m + 1) := by omega
    rw [hidx]
    simp [List.replicate_succ]

/-- C6: each rate-limit response makes the executor sleep `retry_after`
seconds (5.0 when the response specifies none) and retry; with
`max_retries_on_rate_limit = n` the call fails with `RateLimitError` on the
`(n+1)`-th rate-limit response, and with the ceiling `None` any finite run
of rate-limit responses is retried through to the following success. -/
theorem rate_limit_retry_budget (er : Nat) (jitter : Nat → ℚ)
    (ro : Except DbxError Unit) (r : Response)
    (rid : Option String) (errj : Option Json) (bo : Option Int) (payload : Json)
    (hr : raise_dropbox_error_for_resp r = .error (.rateLimitError rid errj bo)) :
    backoffSeconds none = 5 ∧
    (∀ n : Nat,
      runLoop ⟨er, some n⟩ jitter ro (List.replicate (n + 1) r) 0 0 false =
        (List.replicate n (ExecEvent.slept (backoffSeconds bo)),
         .error (.rateLimitError rid errj bo))) ∧
    (∀ k : Nat,
      runLoop ⟨er, none⟩ jitter ro (List.replicate k r ++ [respOkJson payload]) 0 0 false =
        (List.replicate k (ExecEvent.slept (backoffSeconds bo)),
         .ok (.jsonBody payload))) := by
  refine ⟨rfl, fun n => ?_, fun k => ?_⟩
  · have hrep : List.replicate (n + 1) r = List.replicate n r ++ [r] :=
      List.replicate_succ' n r
    rw [hrep, runLoop_rl_replicate ⟨er, some n⟩ jitter ro r rid errj bo hr n 0 0 false [r]
      (fun mm hmr => by injection hmr with h2; omega)]
    have hstep : loopStep ⟨er, some n⟩ jitter ro r 0 (0 + n) false =
        .finish [] (.error (.rateLimitError rid errj bo)) := by
      unfold loopStep
      simp only [hr]
      rw [if_neg (by simp only [rateLimitRetryOk, decide_eq_true_eq]; omega)]
    rw [runLoop_cons_finish ⟨er, some n⟩ jitter ro r [] 0 (0 + n) false _ _ hstep]
    simp
  · rw [runLoop_rl_replicate ⟨er, none⟩ jitter ro r rid errj bo hr k 0 0 false
      [respOkJson payload] (fun mm hmr => by cases hmr)]
    rw [runLoop_okJson]
    simp

/-- Witness for C6 at a 429 response carrying header `retry-after: 3`:
budget 1 exhausted by two 429s, and the unbounded case retried through to a
200. -/
theorem rate_limit_retry_budget_witness :
    runLoop ⟨4, some 1⟩ (fun _ => 0) (.ok ()) [resp429hdr3, resp429hdr3] 0 0 false =
      ([.slept (backoffSeconds (some 3))], .error (.rateLimitError none none (some 3))) ∧
    runLoop ⟨4, none⟩ (fun _ => 0) (.ok ()) [resp429hdr3, respOkJson (.obj [])] 0 0 false =
      ([.slept (backoffSeconds (some 3))], .ok (.jsonBody (.obj []))) := by
  have h := rate_limit_retry_budget 4 (fun _ => 0) (.ok ()) resp429hdr3 none none (some 3)
    (.obj []) rfl
  exact ⟨by simpa [List.replicate] using h.2.1 1, by simpa [List.replicate] using h.2.2 1⟩
